import Mathlib

/-!
Shallow embedding of the hotel-quote parser (Next.js API route
`src/app/api/process/route.ts` and frontend `src/app/page.tsx`).
Monetary amounts are modelled as rationals; JavaScript truthiness
(`||` falling through on `0`, `""`, `null`/`undefined`) and nullish
coalescing (`??` falling through only on `null`/`undefined`) are made
explicit through small helper functions.  Parts of the system that live
in the Python microservice (absent from the repository snapshot) are
modelled from the specification and marked as such.
-/

namespace HotelParser

/-- JavaScript `o || d` on an optional number: `0` is falsy, so both an
absent value and an explicit `0` fall through to the default. -/
def jsOrNum (o : Option ℚ) (d : ℚ) : ℚ :=
  match o with
  | some v => if v = 0 then d else v
  | none => d

/-- JavaScript `o || null` on an optional number: coerces `0` to `null`. -/
def jsNumOrNull (o : Option ℚ) : Option ℚ :=
  match o with
  | some v => if v = 0 then none else some v
  | none => none

/-- JavaScript `o || d` on an optional string: `""` is falsy. -/
def jsOrStr (o : Option String) (d : String) : String :=
  match o with
  | some s => if s = "" then d else s
  | none => d

/-- JavaScript `o || null` on an optional string: coerces `""` to `null`. -/
def jsStrOrNull (o : Option String) : Option String :=
  match o with
  | some s => if s = "" then none else some s
  | none => none

/-- JavaScript truthiness of an optional string (`""` and `null` are falsy). -/
def jsTruthyStr (o : Option String) : Bool :=
  match o with
  | some s => s ≠ ""
  | none => false

/-- One monetary figure with provenance, as declared in `page.tsx`
(`QuoteData` interface): `status`, `value`, `currency`,
`provenance_snippet`, `notes`.  The status is kept as a string because
`transformMicroserviceResponse` passes any upstream status string through. -/
structure MoneyField where
  status : String
  value : Option ℚ
  currency : String
  provenance_snippet : Option String
  notes : String
deriving Repr, DecidableEq

/-- The `extras` block of a `QuoteData` record (`page.tsx`). -/
structure Extras where
  room_nights : Option ℚ
  nightly_rate : Option ℚ
  tax_rate_pct : Option ℚ
  service_rate_pct : Option ℚ
  fnb_minimum : Option ℚ
  proposal_url : Option String
  guestroom_base : Option ℚ
  guestroom_taxes_fees : Option ℚ
  estimated_fnb_gross : Option ℚ
  effective_value_offsets : List String
deriving Repr, DecidableEq

/-- The full structured extraction result (`QuoteData` in `page.tsx`).
The loosely-typed `property`, `program` and `policies` objects are
modelled as association lists. -/
structure QuoteData where
  total_quote : MoneyField
  guestroom_total : MoneyField
  meeting_room_total : MoneyField
  fnb_total : MoneyField
  extras : Extras
  property : List (String × String)
  program : List (String × String)
  concessions : List String
  policies : List (String × String)
  sources : List String
deriving Repr, DecidableEq

/-- An upstream (microservice-side) money object as consumed by
`transformMicroserviceResponse`: every sub-field may be absent, and the
amount may arrive under `amount` or `value`. -/
structure UpMoney where
  status : Option String
  amount : Option ℚ
  value : Option ℚ
  currency : Option String
  provenance_snippet : Option String
  notes : Option String
deriving Repr, DecidableEq

/-- The nested `totals` object of the old upstream format. -/
structure UpTotals where
  total_quote : Option UpMoney
  guestroom_total : Option UpMoney
  meeting_room_total : Option UpMoney
  fnb_total : Option UpMoney
deriving Repr, DecidableEq

/-- The nested `extras` object of the old upstream format. -/
structure UpExtras where
  room_nights : Option ℚ
  nightly_rate : Option ℚ
  tax_rate_pct : Option ℚ
  service_rate_pct : Option ℚ
  fnb_minimum : Option ℚ
  proposal_url : Option String
  guestroom_base : Option ℚ
  guestroom_taxes_fees : Option ℚ
  estimated_fnb_gross : Option ℚ
  effective_value_offsets : Option (List String)
deriving Repr, DecidableEq

/-- An arbitrary upstream payload (`microserviceData : any`).  The old
format nests the money fields under `totals` and the numeric extras under
`extras`; the new format carries the same keys flat at the top level.
A single record with all keys optional models both. -/
structure UpPayload where
  totals : Option UpTotals
  extras : Option UpExtras
  total_quote : Option UpMoney
  guestroom_total : Option UpMoney
  meeting_room_total : Option UpMoney
  fnb_total : Option UpMoney
  room_nights : Option ℚ
  nightly_rate : Option ℚ
  tax_rate_pct : Option ℚ
  service_rate_pct : Option ℚ
  fnb_minimum : Option ℚ
  proposal_url : Option String
  guestroom_base : Option ℚ
  guestroom_taxes_fees : Option ℚ
  estimated_fnb_gross : Option ℚ
  effective_value_offsets : Option (List String)
  property : Option (List (String × String))
  program : Option (List (String × String))
  concessions : Option (List String)
  policies : Option (List (String × String))
  sources : Option (List String)
deriving Repr, DecidableEq

/-- The `\x7b\x7d` default of `microserviceData.totals || \x7b\x7d`. -/
def emptyUpTotals : UpTotals := ⟨none, none, none, none⟩

/-- The `\x7b\x7d` default of `microserviceData.extras || \x7b\x7d`. -/
def emptyUpExtras : UpExtras :=
  ⟨none, none, none, none, none, none, none, none, none, none⟩

/-- The five-line money-field reconstruction repeated for each of the four
money fields in the OLD-format branch of `transformMicroserviceResponse`:
`status OR "not_found"`, `amount ?? value ?? null`, `currency OR "USD"`,
`provenance_snippet OR null`, `notes OR ""` (OR denoting the JavaScript `||`). -/
def transformMoneyOld (m : Option UpMoney) : MoneyField :=
  { status := jsOrStr (m.bind UpMoney.status) "not_found"
    value := (m.bind UpMoney.amount).orElse (fun _ => m.bind UpMoney.value)
    currency := jsOrStr (m.bind UpMoney.currency) "USD"
    provenance_snippet := jsStrOrNull (m.bind UpMoney.provenance_snippet)
    notes := jsOrStr (m.bind UpMoney.notes) "" }

/-- The extras reconstruction of the OLD-format branch: each numeric field
is `x || null` and the offsets list is `x || []` (a JavaScript array is
truthy even when empty). -/
def transformExtrasOld (e : UpExtras) : Extras :=
  { room_nights := jsNumOrNull e.room_nights
    nightly_rate := jsNumOrNull e.nightly_rate
    tax_rate_pct := jsNumOrNull e.tax_rate_pct
    service_rate_pct := jsNumOrNull e.service_rate_pct
    fnb_minimum := jsNumOrNull e.fnb_minimum
    proposal_url := jsStrOrNull e.proposal_url
    guestroom_base := jsNumOrNull e.guestroom_base
    guestroom_taxes_fees := jsNumOrNull e.guestroom_taxes_fees
    estimated_fnb_gross := jsNumOrNull e.estimated_fnb_gross
    effective_value_offsets := e.effective_value_offsets.getD [] }

/-- The five-line money-field reconstruction of the NEW-format branch of
`transformMicroserviceResponse`.  The source duplicates the old-format
code verbatim, reading from the flat payload instead of `totals`. -/
def transformMoneyNew (m : Option UpMoney) : MoneyField :=
  { status := jsOrStr (m.bind UpMoney.status) "not_found"
    value := (m.bind UpMoney.amount).orElse (fun _ => m.bind UpMoney.value)
    currency := jsOrStr (m.bind UpMoney.currency) "USD"
    provenance_snippet := jsStrOrNull (m.bind UpMoney.provenance_snippet)
    notes := jsOrStr (m.bind UpMoney.notes) "" }

/-- The extras reconstruction of the NEW-format branch, reading the flat
top-level keys; the body duplicates the old-format code. -/
def transformExtrasNew (e : UpExtras) : Extras :=
  { room_nights := jsNumOrNull e.room_nights
    nightly_rate := jsNumOrNull e.nightly_rate
    tax_rate_pct := jsNumOrNull e.tax_rate_pct
    service_rate_pct := jsNumOrNull e.service_rate_pct
    fnb_minimum := jsNumOrNull e.fnb_minimum
    proposal_url := jsStrOrNull e.proposal_url
    guestroom_base := jsNumOrNull e.guestroom_base
    guestroom_taxes_fees := jsNumOrNull e.guestroom_taxes_fees
    estimated_fnb_gross := jsNumOrNull e.estimated_fnb_gross
    effective_value_offsets := e.effective_value_offsets.getD [] }

/-- The flat numeric/extras keys of a new-format payload, gathered so the
NEW-format branch can reuse the field-by-field reconstruction shape. -/
def UpPayload.flatExtras (d : UpPayload) : UpExtras :=
  { room_nights := d.room_nights
    nightly_rate := d.nightly_rate
    tax_rate_pct := d.tax_rate_pct
    service_rate_pct := d.service_rate_pct
    fnb_minimum := d.fnb_minimum
    proposal_url := d.proposal_url
    guestroom_base := d.guestroom_base
    guestroom_taxes_fees := d.guestroom_taxes_fees
    estimated_fnb_gross := d.estimated_fnb_gross
    effective_value_offsets := d.effective_value_offsets }

/-- `transformMicroserviceResponse` from `src/app/api/process/route.ts`.
`isOldFormat` is `microserviceData.totals && microserviceData.extras`
(JavaScript objects are truthy whenever present); the old branch reads the
nested `totals`/`extras` objects (`|| \x7b\x7d` defaults), the new branch
reads the same keys flat off the payload; the trailing common fields use
`|| defaults` (objects and arrays are truthy even when empty, hence plain
`getD`). -/
def transformMicroserviceResponse (d : UpPayload) : QuoteData :=
  if d.totals.isSome && d.extras.isSome then
    let totals := d.totals.getD emptyUpTotals
    let extrasIn := d.extras.getD emptyUpExtras
    { total_quote := transformMoneyOld totals.total_quote
      guestroom_total := transformMoneyOld totals.guestroom_total
      meeting_room_total := transformMoneyOld totals.meeting_room_total
      fnb_total := transformMoneyOld totals.fnb_total
      extras := transformExtrasOld extrasIn
      property := d.property.getD []
      program := d.program.getD []
      concessions := d.concessions.getD []
      policies := d.policies.getD []
      sources := d.sources.getD [] }
  else
    { total_quote := transformMoneyNew d.total_quote
      guestroom_total := transformMoneyNew d.guestroom_total
      meeting_room_total := transformMoneyNew d.meeting_room_total
      fnb_total := transformMoneyNew d.fnb_total
      extras := transformExtrasNew d.flatExtras
      property := d.property.getD []
      program := d.program.getD []
      concessions := d.concessions.getD []
      policies := d.policies.getD []
      sources := d.sources.getD [] }

/-- `getCalculatedTotalQuote` from `src/app/page.tsx`:
`(guestroom_total.value || 0) + (meeting_room_total.value || 0) +
(extras?.estimated_fnb_gross || fnb_total.value || 0)`. -/
def getCalculatedTotalQuote (q : QuoteData) : ℚ :=
  let guestroom := jsOrNum q.guestroom_total.value 0
  let meeting := jsOrNum q.meeting_room_total.value 0
  let fnb := jsOrNum q.extras.estimated_fnb_gross (jsOrNum q.fnb_total.value 0)
  guestroom + meeting + fnb

/-- The numeric content of the F&B breakdown string built by
`getFnbBreakdown` in `src/app/page.tsx`. -/
structure FnbBreakdown where
  fnb_minimum : ℚ
  service_charge : ℚ
  tax_on_service : ℚ
  tax_on_fnb : ℚ
  total : ℚ
deriving Repr, DecidableEq

/-- `getFnbBreakdown` from `src/app/page.tsx`, keeping the numbers that the
template string renders: produced only when `estimated_fnb_gross` is truthy;
service charge is `(fnb_minimum || 0) * (service_rate_pct || 0) / 100`, tax
on service is that times `(tax_rate_pct || 0) / 100`, tax on F&B is
`(fnb_minimum || 0) * (tax_rate_pct || 0) / 100`, and the displayed total is
`estimated_fnb_gross` itself. -/
def getFnbBreakdown (q : QuoteData) : Option FnbBreakdown :=
  match q.extras.estimated_fnb_gross with
  | some est =>
    if est = 0 then none
    else some
      { fnb_minimum := jsOrNum q.extras.fnb_minimum 0
        service_charge :=
          jsOrNum q.extras.fnb_minimum 0 * jsOrNum q.extras.service_rate_pct 0 / 100
        tax_on_service :=
          jsOrNum q.extras.fnb_minimum 0 * jsOrNum q.extras.service_rate_pct 0 / 100
            * jsOrNum q.extras.tax_rate_pct 0 / 100
        tax_on_fnb :=
          jsOrNum q.extras.fnb_minimum 0 * jsOrNum q.extras.tax_rate_pct 0 / 100
        total := est }
  | none => none

/-- `getMeetingRoomConditions` from `src/app/page.tsx`: when the meeting-room
status is `conditional` the single condition shown is
`provenance_snippet || notes || "Conditional on F&B minimum"`; otherwise the
list is empty. -/
def getMeetingRoomConditions (q : QuoteData) : List String :=
  if q.meeting_room_total.status = "conditional" then
    [jsOrStr q.meeting_room_total.provenance_snippet
      (jsOrStr (some q.meeting_room_total.notes) "Conditional on F&B minimum")]
  else []

/-- Modelled from the spec: the F&B gross estimation performed inside the
extraction microservice, whose source is not part of this repository
snapshot (only its caller is).  Spec §4.1: `service_charge =
fnb_minimum * service_rate_pct / 100`, `tax_on_service = service_charge *
tax_rate_pct / 100`, `tax_on_fnb = fnb_minimum * tax_rate_pct / 100`,
`estimated_fnb_gross = fnb_minimum + service_charge + tax_on_service +
tax_on_fnb`. -/
def estimatedFnbGross (fnb_minimum service_rate_pct tax_rate_pct : ℚ) : ℚ :=
  let service_charge := fnb_minimum * service_rate_pct / 100
  let tax_on_service := service_charge * tax_rate_pct / 100
  let tax_on_fnb := fnb_minimum * tax_rate_pct / 100
  fnb_minimum + service_charge + tax_on_service + tax_on_fnb

/-- Modelled from the spec: the derived-total computation performed by the
microservice merge step, absent from this repository snapshot.  Spec §4.1:
`total_quote`, when not explicitly stated, is computed as `guestroom_total +
meeting_room_total + (estimated_fnb_gross or fnb_total)`, with status set to
`derived` and a note explaining the formula. -/
def computeTotalQuote (q : QuoteData) : MoneyField :=
  if q.total_quote.status = "explicit" then q.total_quote
  else
    { status := "derived"
      value := some (q.guestroom_total.value.getD 0 + q.meeting_room_total.value.getD 0
        + ((q.extras.estimated_fnb_gross.orElse (fun _ => q.fnb_total.value)).getD 0))
      currency := q.total_quote.currency
      provenance_snippet := none
      notes := "derived as guestroom_total + meeting_room_total + (estimated_fnb_gross or fnb_total)" }

/-- The canonical `not_found` money field. -/
def notFoundField : MoneyField :=
  { status := "not_found", value := none, currency := "USD"
    provenance_snippet := none, notes := "" }

/-- A quote record with every money field `not_found` and every other block
empty. -/
def emptyQuoteData : QuoteData :=
  { total_quote := notFoundField
    guestroom_total := notFoundField
    meeting_room_total := notFoundField
    fnb_total := notFoundField
    extras := ⟨none, none, none, none, none, none, none, none, none, []⟩
    property := []
    program := []
    concessions := []
    policies := []
    sources := [] }

/-- Modelled from the spec: the field-level merge precedence of the
microservice merge step, absent from this repository snapshot.  Spec §4.4:
for every field, if the proposal-derived record has a non-`not_found`
value it wins; otherwise fall back to the email-derived value; otherwise
the field is `not_found`. -/
def mergeField (emailField proposalField : MoneyField) : MoneyField :=
  if proposalField.status ≠ "not_found" then proposalField
  else if emailField.status ≠ "not_found" then emailField
  else notFoundField

/-- Modelled from the spec: the record-level merge of the microservice,
absent from this repository snapshot.  Its inputs are up to two partial
records, either of which may be absent; an absent input contributes
nothing, so a lone record is returned unchanged, and when both are present
every money field is merged by the precedence rule while the remaining
blocks are taken from the authoritative proposal record. -/
def mergeRecords : Option QuoteData → Option QuoteData → QuoteData
  | none, none => emptyQuoteData
  | some email, none => email
  | none, some proposal => proposal
  | some email, some proposal =>
    { total_quote := mergeField email.total_quote proposal.total_quote
      guestroom_total := mergeField email.guestroom_total proposal.guestroom_total
      meeting_room_total := mergeField email.meeting_room_total proposal.meeting_room_total
      fnb_total := mergeField email.fnb_total proposal.fnb_total
      extras := proposal.extras
      property := proposal.property
      program := proposal.program
      concessions := proposal.concessions
      policies := proposal.policies
      sources := email.sources ++ proposal.sources }

/-- An uploaded file as seen through the `FormData` API. -/
structure FileData where
  name : String
  size : Nat
  ftype : String
deriving Repr, DecidableEq

/-- The multipart form consumed by the `POST` handler in
`src/app/api/process/route.ts`: `formData.get` yields `null` for a missing
key; a present text key is a string (possibly empty, which is falsy). -/
structure RequestForm where
  email_content : Option String
  email_file : Option FileData
  proposal_file : Option FileData
  proposal_url : Option String
  file : Option FileData
deriving Repr, DecidableEq

/-- The JSON body returned by the microservice `/extract` endpoint
(`MicroserviceResponse` in `route.ts`). -/
structure MicroResponse where
  success : Bool
  data : Option UpPayload
  error : Option String
  sources : List String
  urls_found : List String
deriving Repr, DecidableEq

/-- The observable outcome of `fetch` on the microservice: either a parsed
response, or any of the conditions that the `try` block converts into a
thrown exception (network failure, a non-ok HTTP status, an unparsable
body). -/
inductive FetchResult where
  | ok (r : MicroResponse)
  | throws
deriving Repr, DecidableEq

/-- The JSON body produced by the `POST` handler.  A field is `none` when
the object literal built by the handler omits the key (`JSON.stringify` drops
`undefined` values). -/
structure ApiBody where
  success : Option Bool
  data : Option QuoteData
  error : Option String
  sources : Option (List String)
  urls_found : Option (List String)
deriving Repr, DecidableEq

/-- A `NextResponse.json` value: HTTP status plus JSON body. -/
structure ApiResponse where
  status : Nat
  body : ApiBody
deriving Repr, DecidableEq

/-- The content-presence test of `route.ts` line 80:
`!emailContent && !emailFile && !proposalFile && !proposalUrl && !legacyFile`
negated, under JavaScript truthiness (an empty string is falsy, a `File`
object is always truthy). -/
def hasContent (f : RequestForm) : Bool :=
  jsTruthyStr f.email_content || f.email_file.isSome || f.proposal_file.isSome
    || jsTruthyStr f.proposal_url || f.file.isSome

/-- The `POST` handler of `src/app/api/process/route.ts` as a function of
the request form and the microservice fetch outcome.  With no content it
returns 400 before any fetch; a thrown fetch (or a missing `data` object,
which makes `transformMicroserviceResponse` throw on property access) is
caught and mapped to the fixed 500 body; a microservice-reported failure is
forwarded with status 500; success returns 200 with the transformed data. -/
def POST (f : RequestForm) (fetched : FetchResult) : ApiResponse :=
  if hasContent f = false then
    { status := 400
      body := { success := none, data := none
                error := some "No content provided for extraction"
                sources := none, urls_found := none } }
  else
    match fetched with
    | .throws =>
      { status := 500
        body := { success := none, data := none
                  error := some "Failed to process content"
                  sources := none, urls_found := none } }
    | .ok r =>
      if r.success = false then
        { status := 500
          body := { success := none, data := none, error := r.error
                    sources := none, urls_found := none } }
      else
        match r.data with
        | none =>
          { status := 500
            body := { success := none, data := none
                      error := some "Failed to process content"
                      sources := none, urls_found := none } }
        | some d =>
          { status := 200
            body := { success := some true
                      data := some (transformMicroserviceResponse d)
                      error := none
                      sources := some r.sources
                      urls_found := some r.urls_found } }

/-- A payload with every key absent. -/
def emptyUpPayload : UpPayload :=
  { totals := none, extras := none
    total_quote := none, guestroom_total := none
    meeting_room_total := none, fnb_total := none
    room_nights := none, nightly_rate := none, tax_rate_pct := none
    service_rate_pct := none, fnb_minimum := none, proposal_url := none
    guestroom_base := none, guestroom_taxes_fees := none
    estimated_fnb_gross := none, effective_value_offsets := none
    property := none, program := none, concessions := none
    policies := none, sources := none }

/-- Status/value consistency of a `MoneyField`: `not_found` carries no
value, any other status carries one. -/
def moneyConsistent (f : MoneyField) : Prop :=
  (f.status = "not_found" → f.value = none)
    ∧ (f.status ≠ "not_found" → f.value.isSome = true)

/-- Status/value consistency of an upstream money object, under the same
JavaScript coercions the transform applies: whenever the object is present,
a status that coerces to `not_found` comes with no `amount` and no `value`,
and any other status comes with at least one of the two. -/
def upConsistent (o : Option UpMoney) : Prop :=
  ∀ m, o = some m →
    (jsOrStr m.status "not_found" = "not_found" → m.amount = none ∧ m.value = none)
      ∧ (jsOrStr m.status "not_found" ≠ "not_found" →
          ((m.amount.orElse (fun _ => m.value)).isSome = true))

/-- An old-format payload carrying the given `totals` and `extras` objects
and the given common blocks, with no flat keys. -/
def oldFormatPayload (t : UpTotals) (e : UpExtras)
    (property program policies : Option (List (String × String)))
    (concessions sources : Option (List String)) : UpPayload :=
  { totals := some t, extras := some e
    total_quote := none, guestroom_total := none
    meeting_room_total := none, fnb_total := none
    room_nights := none, nightly_rate := none, tax_rate_pct := none
    service_rate_pct := none, fnb_minimum := none, proposal_url := none
    guestroom_base := none, guestroom_taxes_fees := none
    estimated_fnb_gross := none, effective_value_offsets := none
    property := property, program := program, concessions := concessions
    policies := policies, sources := sources }

/-- The new-format payload corresponding to `oldFormatPayload t e ...`: the
same money objects and extras values placed flat at the top level. -/
def newFormatPayload (t : UpTotals) (e : UpExtras)
    (property program policies : Option (List (String × String)))
    (concessions sources : Option (List String)) : UpPayload :=
  { totals := none, extras := none
    total_quote := t.total_quote, guestroom_total := t.guestroom_total
    meeting_room_total := t.meeting_room_total, fnb_total := t.fnb_total
    room_nights := e.room_nights, nightly_rate := e.nightly_rate
    tax_rate_pct := e.tax_rate_pct, service_rate_pct := e.service_rate_pct
    fnb_minimum := e.fnb_minimum, proposal_url := e.proposal_url
    guestroom_base := e.guestroom_base
    guestroom_taxes_fees := e.guestroom_taxes_fees
    estimated_fnb_gross := e.estimated_fnb_gross
    effective_value_offsets := e.effective_value_offsets
    property := property, program := program, concessions := concessions
    policies := policies, sources := sources }

/-- The record of the derived-total example in the spec: guestroom 50000,
meeting rooms 5000, estimated F&B gross 13447.8, no explicit all-in
total. -/
def recordC1 : QuoteData :=
  { emptyQuoteData with
      guestroom_total :=
        { status := "explicit", value := some 50000, currency := "USD"
          provenance_snippet := none, notes := "" }
      meeting_room_total :=
        { status := "explicit", value := some 5000, currency := "USD"
          provenance_snippet := none, notes := "" }
      extras := { emptyQuoteData.extras with estimated_fnb_gross := some 13447.8 } }

/-- An upstream payload whose transform yields `recordC1`-shaped data:
flat format, guestroom 50000, meeting rooms 5000, estimated F&B gross
13447.8. -/
def payloadC1 : UpPayload :=
  { emptyUpPayload with
      guestroom_total := some ⟨some "explicit", some 50000, none, none, none, none⟩
      meeting_room_total := some ⟨some "explicit", some 5000, none, none, none, none⟩
      estimated_fnb_gross := some 13447.8 }

/-- The record of the F&B-gross example in the spec: minimum 10000, service
24%, tax 8.45%, estimated gross 13447.8. -/
def recordC2 : QuoteData :=
  { emptyQuoteData with
      extras :=
        { emptyQuoteData.extras with
            fnb_minimum := some 10000
            service_rate_pct := some 24
            tax_rate_pct := some (845 / 100)
            estimated_fnb_gross := some (134478 / 10) } }

/-- An upstream payload whose `total_quote` object carries an amount but no
status at all. -/
def payloadC4 : UpPayload :=
  { emptyUpPayload with
      total_quote := some ⟨none, some 100, none, none, none, none⟩ }

/-- An upstream payload with a conditional meeting-room field carrying a
provenance snippet. -/
def payloadC8 : UpPayload :=
  { emptyUpPayload with
      meeting_room_total :=
        some ⟨some "conditional", some 5000, none, none,
          some "Meeting room rental waived if F&B minimum is met", none⟩ }

/-- An old-format payload with empty `totals` and `extras` objects. -/
def payloadC9 : UpPayload :=
  { emptyUpPayload with
      totals := some emptyUpTotals
      extras := some emptyUpExtras }

/-- An old-format payload whose `extras.room_nights` is the number 0. -/
def payloadC10 : UpPayload :=
  { emptyUpPayload with
      totals := some emptyUpTotals
      extras := some { emptyUpExtras with room_nights := some 0 } }

theorem jsOrNum_zero_default (o : Option ℚ) : jsOrNum o 0 = o.getD 0 := by
  cases o with
  | none => rfl
  | some v =>
    by_cases h : v = 0
    · simp [jsOrNum, h]
    · simp [jsOrNum, h]

theorem jsOrNum_none (d : ℚ) : jsOrNum none d = d := rfl

theorem jsOrNum_some_of_ne {v : ℚ} (h : v ≠ 0) (d : ℚ) :
    jsOrNum (some v) d = v := by
  simp [jsOrNum, h]

theorem jsNumOrNull_ne_some_zero (o : Option ℚ) : jsNumOrNull o ≠ some 0 := by
  cases o with
  | none => simp [jsNumOrNull]
  | some v =>
    by_cases h : v = 0
    · simp [jsNumOrNull, h]
    · simp [jsNumOrNull, h]

theorem jsStrOrNull_ne_some_empty (o : Option String) :
    jsStrOrNull o ≠ some "" := by
  cases o with
  | none => simp [jsStrOrNull]
  | some s =>
    by_cases h : s = ""
    · simp [jsStrOrNull, h]
    · simp [jsStrOrNull, h]

theorem transform_est_fnb_gross_ne_some_zero (d : UpPayload) :
    (transformMicroserviceResponse d).extras.estimated_fnb_gross ≠ some 0 := by
  unfold transformMicroserviceResponse
  split
  · exact jsNumOrNull_ne_some_zero _
  · exact jsNumOrNull_ne_some_zero _

theorem transform_meeting_prov_ne_some_empty (d : UpPayload) :
    (transformMicroserviceResponse d).meeting_room_total.provenance_snippet
      ≠ some "" := by
  unfold transformMicroserviceResponse
  split
  · exact jsStrOrNull_ne_some_empty _
  · exact jsStrOrNull_ne_some_empty _

theorem transformMoneyOld_none : transformMoneyOld none = notFoundField := rfl

theorem transformMoneyNew_none : transformMoneyNew none = notFoundField := rfl

theorem transformMoneyOld_consistent (m : Option UpMoney) (h : upConsistent m) :
    moneyConsistent (transformMoneyOld m) := by
  cases m with
  | none =>
    exact ⟨fun _ => rfl, fun hne => absurd rfl hne⟩
  | some mm =>
    have hm := h mm rfl
    constructor
    · intro hs
      have := hm.1 hs
      simp [transformMoneyOld, this.1, this.2, Option.orElse]
    · intro hs
      exact hm.2 hs

theorem transformMoneyNew_consistent (m : Option UpMoney) (h : upConsistent m) :
    moneyConsistent (transformMoneyNew m) := by
  cases m with
  | none =>
    exact ⟨fun _ => rfl, fun hne => absurd rfl hne⟩
  | some mm =>
    have hm := h mm rfl
    constructor
    · intro hs
      have := hm.1 hs
      simp [transformMoneyNew, this.1, this.2, Option.orElse]
    · intro hs
      exact hm.2 hs

/-- C2: when the F&B minimum and the service/tax percentages are known and
no explicit gross figure exists, the estimated F&B gross is
`m + m*s/100 + (m*s/100)*t/100 + m*t/100` with `pct/100` percentage
semantics in exactly this order of operations, and for
`fnb_minimum = 10000`, `service_rate_pct = 24`, `tax_rate_pct = 8.45` the
components are `service_charge = 2400`, `tax_on_service = 202.8`,
`tax_on_fnb = 845` and `estimated_fnb_gross = 13447.8`. -/
theorem claim_C2 :
    (∀ m s t : ℚ, estimatedFnbGross m s t
        = m + m * s / 100 + (m * s / 100) * t / 100 + m * t / 100)
    ∧ estimatedFnbGross 10000 24 8.45 = 13447.8
    ∧ getFnbBreakdown recordC2
        = some ⟨10000, 2400, 202.8, 845, 13447.8⟩ := by
  refine ⟨fun m s t => rfl, by norm_num [estimatedFnbGross], ?_⟩
  norm_num [getFnbBreakdown, recordC2, emptyQuoteData, jsOrNum]

/-- C3: field-by-field, a non-`not_found` proposal field wins, otherwise a
non-`not_found` email field, otherwise the field is `not_found`; the merge
of two records applies this to every money field, and a lone proposal
record is returned unchanged. -/
theorem claim_C3 :
    (∀ e p : MoneyField,
        (p.status ≠ "not_found" → mergeField e p = p)
        ∧ (p.status = "not_found" → e.status ≠ "not_found" → mergeField e p = e)
        ∧ (p.status = "not_found" → e.status = "not_found" →
            mergeField e p = notFoundField))
    ∧ (∀ e p : QuoteData,
        (mergeRecords (some e) (some p)).total_quote
            = mergeField e.total_quote p.total_quote
        ∧ (mergeRecords (some e) (some p)).guestroom_total
            = mergeField e.guestroom_total p.guestroom_total
        ∧ (mergeRecords (some e) (some p)).meeting_room_total
            = mergeField e.meeting_room_total p.meeting_room_total
        ∧ (mergeRecords (some e) (some p)).fnb_total
            = mergeField e.fnb_total p.fnb_total)
    ∧ (∀ p : QuoteData, mergeRecords none (some p) = p) := by
  refine ⟨fun e p => ⟨?_, ?_, ?_⟩, fun e p => ⟨rfl, rfl, rfl, rfl⟩, fun p => rfl⟩
  · intro h; simp [mergeField, h]
  · intro hp he; simp [mergeField, hp, he]
  · intro hp he; simp [mergeField, hp, he]

/-- Witness for C3 at concrete fields: an explicit proposal field beats a
`not_found` email field. -/
theorem claim_C3_witness :
    mergeField notFoundField ⟨"explicit", some 5, "USD", none, ""⟩
      = ⟨"explicit", some 5, "USD", none, ""⟩ :=
  (claim_C3.1 notFoundField ⟨"explicit", some 5, "USD", none, ""⟩).1 (by decide)

/-- C5: a request carrying none of the five content inputs is answered with
HTTP 400 and an error message, and the response does not depend on the
microservice fetch outcome (the handler returns before calling it). -/
theorem claim_C5 (f : RequestForm) (h : hasContent f = false) :
    (∀ fr fr2 : FetchResult, POST f fr = POST f fr2)
    ∧ ∀ fr : FetchResult, (POST f fr).status = 400
        ∧ (POST f fr).body.error = some "No content provided for extraction" := by
  constructor
  · intro fr fr2; simp [POST, h]
  · intro fr; simp [POST, h]

/-- Witness for C5 at the empty request form. -/
theorem claim_C5_witness :
    (POST ⟨none, none, none, none, none⟩ FetchResult.throws).status = 400
    ∧ (POST ⟨none, none, none, none, none⟩ FetchResult.throws).body.error
        = some "No content provided for extraction" :=
  (claim_C5 ⟨none, none, none, none, none⟩ rfl).2 FetchResult.throws

/-- Counterexample for C6: the failure bodies of the handler carry only an
`error` key; at the empty request the 400 body has no `success` field at
all, so in particular it does not contain `success: false`. -/
theorem claim_C6_counterexample :
    (POST ⟨none, none, none, none, none⟩ FetchResult.throws).body.success = none
    ∧ (POST ⟨none, none, none, none, none⟩ FetchResult.throws).body.success
        ≠ some false
    ∧ (POST ⟨none, none, none, none, none⟩ FetchResult.throws).status = 400 :=
  ⟨rfl, by decide, rfl⟩

/-- C6 as amended: every failure (no content, thrown fetch, microservice
failure report, missing data object) is surfaced as a structured failure
with a 4xx/5xx status, no `data` record and no `success: true` marker (the
`success` key is simply absent from failure bodies rather than set to
`false`); the no-content and exception paths carry a fixed human-readable
error string and the microservice-failure path forwards the upstream error
field. -/
theorem claim_C6_amended (f : RequestForm) (r : MicroResponse) :
    (hasContent f = false → ∀ fr : FetchResult,
        (POST f fr).status = 400
        ∧ (POST f fr).body.success = none
        ∧ (POST f fr).body.data = none
        ∧ (POST f fr).body.error = some "No content provided for extraction")
    ∧ (hasContent f = true →
        (POST f FetchResult.throws).status = 500
        ∧ (POST f FetchResult.throws).body.success = none
        ∧ (POST f FetchResult.throws).body.data = none
        ∧ (POST f FetchResult.throws).body.error = some "Failed to process content")
    ∧ (hasContent f = true → r.success = false →
        (POST f (FetchResult.ok r)).status = 500
        ∧ (POST f (FetchResult.ok r)).body.success = none
        ∧ (POST f (FetchResult.ok r)).body.data = none
        ∧ (POST f (FetchResult.ok r)).body.error = r.error)
    ∧ (hasContent f = true → r.success = true → r.data = none →
        (POST f (FetchResult.ok r)).status = 500
        ∧ (POST f (FetchResult.ok r)).body.success = none
        ∧ (POST f (FetchResult.ok r)).body.data = none
        ∧ (POST f (FetchResult.ok r)).body.error
            = some "Failed to process content") := by
  refine ⟨?_, ?_, ?_, ?_⟩
  · intro h fr; simp [POST, h]
  · intro h; simp [POST, h]
  · intro h hr; simp [POST, h, hr]
  · intro h hr hd; simp [POST, h, hr, hd]

/-- Witness for C6 as amended: a microservice-reported failure on a request
with email content is forwarded as a 500 with the upstream error and no
`success`/`data` keys. -/
theorem claim_C6_amended_witness :
    (POST ⟨some "email text", none, none, none, none⟩
        (FetchResult.ok ⟨false, none, some "bad document", [], []⟩)).status = 500
    ∧ (POST ⟨some "email text", none, none, none, none⟩
        (FetchResult.ok ⟨false, none, some "bad document", [], []⟩)).body.success
        = none
    ∧ (POST ⟨some "email text", none, none, none, none⟩
        (FetchResult.ok ⟨false, none, some "bad document", [], []⟩)).body.data
        = none
    ∧ (POST ⟨some "email text", none, none, none, none⟩
        (FetchResult.ok ⟨false, none, some "bad document", [], []⟩)).body.error
        = some "bad document" :=
  (claim_C6_amended ⟨some "email text", none, none, none, none⟩
      ⟨false, none, some "bad document", [], []⟩).2.2.1 (by decide) rfl

/-- C1: on every record the system produces, when the total quote is not
explicitly stated its value is computed as `guestroom_total +
meeting_room_total + (estimated_fnb_gross if present, otherwise
fnb_total)` with absent addends treated as 0 — shown both for the
frontend recomputation `getCalculatedTotalQuote` on every transformed
record (the transform never emits `estimated_fnb_gross = 0`, so the `||`
fallback agrees with presence) and for the spec-modelled merge-side
computation, which also sets status `derived`; at guestroom 50000, meeting
5000, estimated F&B gross 13447.8 the total is 68447.8. -/
theorem claim_C1 :
    (∀ d : UpPayload,
        (transformMicroserviceResponse d).total_quote.status ≠ "explicit" →
        getCalculatedTotalQuote (transformMicroserviceResponse d)
          = (transformMicroserviceResponse d).guestroom_total.value.getD 0
            + (transformMicroserviceResponse d).meeting_room_total.value.getD 0
            + ((transformMicroserviceResponse d).extras.estimated_fnb_gross.elim
                ((transformMicroserviceResponse d).fnb_total.value.getD 0) id))
    ∧ (∀ q : QuoteData, q.total_quote.status ≠ "explicit" →
        (computeTotalQuote q).status = "derived"
        ∧ (computeTotalQuote q).value
            = some (q.guestroom_total.value.getD 0
              + q.meeting_room_total.value.getD 0
              + (q.extras.estimated_fnb_gross.elim (q.fnb_total.value.getD 0) id)))
    ∧ getCalculatedTotalQuote recordC1 = 68447.8
    ∧ (computeTotalQuote recordC1).status = "derived"
    ∧ (computeTotalQuote recordC1).value = some 68447.8 := by
  refine ⟨?_, ?_, ?_, ?_, ?_⟩
  · intro d _
    have hest := transform_est_fnb_gross_ne_some_zero d
    rcases hv : (transformMicroserviceResponse d).extras.estimated_fnb_gross
      with _ | v
    · simp [getCalculatedTotalQuote, hv, jsOrNum_none, jsOrNum_zero_default]
    · have hv0 : v ≠ 0 := fun h0 => hest (by rw [hv, h0])
      simp [getCalculatedTotalQuote, hv, jsOrNum_some_of_ne hv0,
        jsOrNum_zero_default]
  · intro q h
    constructor
    · simp [computeTotalQuote, h]
    · simp only [computeTotalQuote, h, if_neg]
      rcases hq : q.extras.estimated_fnb_gross with _ | v <;>
        simp [hq, Option.orElse]
  · norm_num [getCalculatedTotalQuote, recordC1, emptyQuoteData, jsOrNum]
  · rw [computeTotalQuote, if_neg (by decide)]
  · rw [computeTotalQuote, if_neg (by decide)]
    norm_num [recordC1, emptyQuoteData, notFoundField, Option.orElse]

/-- Witness for C1: the frontend recomputation equation instantiated at the
concrete transformed payload, and the spec-modelled derived status at the
concrete record. -/
theorem claim_C1_witness :
    getCalculatedTotalQuote (transformMicroserviceResponse payloadC1)
      = (transformMicroserviceResponse payloadC1).guestroom_total.value.getD 0
        + (transformMicroserviceResponse payloadC1).meeting_room_total.value.getD 0
        + ((transformMicroserviceResponse payloadC1).extras.estimated_fnb_gross.elim
            ((transformMicroserviceResponse payloadC1).fnb_total.value.getD 0) id)
    ∧ (computeTotalQuote recordC1).status = "derived" :=
  ⟨claim_C1.1 payloadC1 (by decide), (claim_C1.2.1 recordC1 (by decide)).1⟩

/-- C7: the old-format branch (money fields nested under `totals`, extras
under `extras`) and the new-format branch (the same objects flat at the
top level) of the transform produce equal records on corresponding
payloads. -/
theorem claim_C7 (t : UpTotals) (e : UpExtras)
    (property program policies : Option (List (String × String)))
    (concessions sources : Option (List String)) :
    transformMicroserviceResponse
        (oldFormatPayload t e property program policies concessions sources)
      = transformMicroserviceResponse
        (newFormatPayload t e property program policies concessions sources) := by
  rfl

/-- C8: on every transformed record, a `conditional` meeting-room field
surfaces exactly one condition — its provenance snippet when present,
otherwise its notes when non-empty, otherwise the default clause — and a
non-`conditional` field surfaces none. -/
theorem claim_C8 (d : UpPayload) :
    ((transformMicroserviceResponse d).meeting_room_total.status = "conditional" →
      (∀ s, (transformMicroserviceResponse d).meeting_room_total.provenance_snippet
            = some s →
          getMeetingRoomConditions (transformMicroserviceResponse d) = [s])
      ∧ ((transformMicroserviceResponse d).meeting_room_total.provenance_snippet
            = none →
          (transformMicroserviceResponse d).meeting_room_total.notes ≠ "" →
          getMeetingRoomConditions (transformMicroserviceResponse d)
            = [(transformMicroserviceResponse d).meeting_room_total.notes])
      ∧ ((transformMicroserviceResponse d).meeting_room_total.provenance_snippet
            = none →
          (transformMicroserviceResponse d).meeting_room_total.notes = "" →
          getMeetingRoomConditions (transformMicroserviceResponse d)
            = ["Conditional on F&B minimum"]))
    ∧ ((transformMicroserviceResponse d).meeting_room_total.status ≠ "conditional" →
        getMeetingRoomConditions (transformMicroserviceResponse d) = []) := by
  constructor
  · intro hc
    refine ⟨?_, ?_, ?_⟩
    · intro s hs
      have hne : s ≠ "" := by
        intro h0
        exact transform_meeting_prov_ne_some_empty d (h0 ▸ hs)
      simp [getMeetingRoomConditions, hc, hs, jsOrStr, hne]
    · intro hp hn
      simp [getMeetingRoomConditions, hc, hp, jsOrStr, hn]
    · intro hp hn
      simp [getMeetingRoomConditions, hc, hp, jsOrStr, hn]
  · intro hc
    simp [getMeetingRoomConditions, hc]

/-- Witness for C8 at a payload with a conditional meeting-room field
carrying a provenance snippet. -/
theorem claim_C8_witness :
    getMeetingRoomConditions (transformMicroserviceResponse payloadC8)
      = ["Meeting room rental waived if F&B minimum is met"] :=
  ((claim_C8 payloadC8).1 (by decide)).1
    "Meeting room rental waived if F&B minimum is met" (by decide)

/-- Counterexample for C4: an upstream payload whose `total_quote` object
carries `amount: 100` but no status is transformed into a field with
status `not_found` and value 100, violating the claimed invariant that
`not_found` implies an absent value. -/
theorem claim_C4_counterexample :
    (transformMicroserviceResponse payloadC4).total_quote.status = "not_found"
    ∧ (transformMicroserviceResponse payloadC4).total_quote.value = some 100
    ∧ ¬ moneyConsistent ((transformMicroserviceResponse payloadC4).total_quote) := by
  refine ⟨rfl, rfl, fun h => ?_⟩
  have h0 : (some (100 : ℚ) : Option ℚ) = none := h.1 rfl
  exact Option.noConfusion h0

/-- C4 as amended: the transform preserves status/value consistency rather
than establishing it — for every upstream payload whose money objects
(nested and flat) are themselves status/value-consistent under the
JavaScript coercions, all four transformed MoneyFields satisfy the
invariant that `not_found` carries no value and any other status carries
one. -/
theorem claim_C4_amended (d : UpPayload)
    (h1 : upConsistent ((d.totals.getD emptyUpTotals).total_quote))
    (h2 : upConsistent ((d.totals.getD emptyUpTotals).guestroom_total))
    (h3 : upConsistent ((d.totals.getD emptyUpTotals).meeting_room_total))
    (h4 : upConsistent ((d.totals.getD emptyUpTotals).fnb_total))
    (h5 : upConsistent d.total_quote)
    (h6 : upConsistent d.guestroom_total)
    (h7 : upConsistent d.meeting_room_total)
    (h8 : upConsistent d.fnb_total) :
    moneyConsistent (transformMicroserviceResponse d).total_quote
    ∧ moneyConsistent (transformMicroserviceResponse d).guestroom_total
    ∧ moneyConsistent (transformMicroserviceResponse d).meeting_room_total
    ∧ moneyConsistent (transformMicroserviceResponse d).fnb_total := by
  rcases ht : d.totals with _ | t
  · simp only [transformMicroserviceResponse, ht, Option.isSome_none,
      Bool.false_and, Bool.false_eq_true, if_false]
    exact ⟨transformMoneyNew_consistent _ h5, transformMoneyNew_consistent _ h6,
      transformMoneyNew_consistent _ h7, transformMoneyNew_consistent _ h8⟩
  · rcases he : d.extras with _ | e
    · simp only [transformMicroserviceResponse, ht, he, Option.isSome_none,
        Option.isSome_some, Bool.and_false, Bool.false_eq_true, if_false]
      exact ⟨transformMoneyNew_consistent _ h5, transformMoneyNew_consistent _ h6,
        transformMoneyNew_consistent _ h7, transformMoneyNew_consistent _ h8⟩
    · rw [ht] at h1 h2 h3 h4
      simp only [Option.getD_some] at h1 h2 h3 h4
      simp only [transformMicroserviceResponse, ht, he, Option.isSome_some,
        Bool.and_self, if_true, Option.getD_some]
      exact ⟨transformMoneyOld_consistent _ h1, transformMoneyOld_consistent _ h2,
        transformMoneyOld_consistent _ h3, transformMoneyOld_consistent _ h4⟩

/-- Witness for C4 as amended at the all-absent payload, whose money
objects are vacuously consistent. -/
theorem claim_C4_amended_witness :
    moneyConsistent (transformMicroserviceResponse emptyUpPayload).total_quote :=
  (claim_C4_amended emptyUpPayload
    (fun _ hm => nomatch hm) (fun _ hm => nomatch hm)
    (fun _ hm => nomatch hm) (fun _ hm => nomatch hm)
    (fun _ hm => nomatch hm) (fun _ hm => nomatch hm)
    (fun _ hm => nomatch hm) (fun _ hm => nomatch hm)).1

/-- C9: in both transform branches, a money object that omits its currency
is given currency `USD`, and a money field absent from the upstream
payload comes out with status `not_found`, no value, currency `USD` and
empty notes (exactly `notFoundField`). -/
theorem claim_C9 (d : UpPayload) (t : UpTotals) (e : UpExtras) (m : UpMoney) :
    (d.totals = some t → d.extras = some e →
      ((t.total_quote = none →
          (transformMicroserviceResponse d).total_quote = notFoundField)
       ∧ (t.guestroom_total = none →
          (transformMicroserviceResponse d).guestroom_total = notFoundField)
       ∧ (t.meeting_room_total = none →
          (transformMicroserviceResponse d).meeting_room_total = notFoundField)
       ∧ (t.fnb_total = none →
          (transformMicroserviceResponse d).fnb_total = notFoundField)
       ∧ (t.total_quote = some m → m.currency = none →
          (transformMicroserviceResponse d).total_quote.currency = "USD")
       ∧ (t.guestroom_total = some m → m.currency = none →
          (transformMicroserviceResponse d).guestroom_total.currency = "USD")
       ∧ (t.meeting_room_total = some m → m.currency = none →
          (transformMicroserviceResponse d).meeting_room_total.currency = "USD")
       ∧ (t.fnb_total = some m → m.currency = none →
          (transformMicroserviceResponse d).fnb_total.currency = "USD")))
    ∧ ((d.totals.isSome && d.extras.isSome) = false →
      ((d.total_quote = none →
          (transformMicroserviceResponse d).total_quote = notFoundField)
       ∧ (d.guestroom_total = none →
          (transformMicroserviceResponse d).guestroom_total = notFoundField)
       ∧ (d.meeting_room_total = none →
          (transformMicroserviceResponse d).meeting_room_total = notFoundField)
       ∧ (d.fnb_total = none →
          (transformMicroserviceResponse d).fnb_total = notFoundField)
       ∧ (d.total_quote = some m → m.currency = none →
          (transformMicroserviceResponse d).total_quote.currency = "USD")
       ∧ (d.guestroom_total = some m → m.currency = none →
          (transformMicroserviceResponse d).guestroom_total.currency = "USD")
       ∧ (d.meeting_room_total = some m → m.currency = none →
          (transformMicroserviceResponse d).meeting_room_total.currency = "USD")
       ∧ (d.fnb_total = some m → m.currency = none →
          (transformMicroserviceResponse d).fnb_total.currency = "USD"))) := by
  constructor
  · intro ht he
    refine ⟨fun h => ?_, fun h => ?_, fun h => ?_, fun h => ?_,
      fun hs hc => ?_, fun hs hc => ?_, fun hs hc => ?_, fun hs hc => ?_⟩ <;>
      simp [transformMicroserviceResponse, ht, he, notFoundField,
        transformMoneyOld, jsOrStr, jsStrOrNull, *]
  · intro hc0
    refine ⟨fun h => ?_, fun h => ?_, fun h => ?_, fun h => ?_,
      fun hs hc => ?_, fun hs hc => ?_, fun hs hc => ?_, fun hs hc => ?_⟩ <;>
      simp [transformMicroserviceResponse, hc0, notFoundField,
        transformMoneyNew, jsOrStr, jsStrOrNull, *]

/-- Witness for C9 at an old-format payload with empty nested objects: the
absent `total_quote` comes out as the canonical `not_found` field. -/
theorem claim_C9_witness :
    (transformMicroserviceResponse payloadC9).total_quote = notFoundField :=
  ((claim_C9 payloadC9 emptyUpTotals emptyUpExtras
      ⟨none, none, none, none, none, none⟩).1 rfl rfl).1 rfl

/-- C10: in both transform branches, every numeric extras field reported as
0 by the microservice is coerced to `null` by the `|| null` fallback. -/
theorem claim_C10 (d : UpPayload) (t : UpTotals) (e : UpExtras) :
    (d.totals = some t → d.extras = some e →
      ((e.room_nights = some 0 →
          (transformMicroserviceResponse d).extras.room_nights = none)
       ∧ (e.nightly_rate = some 0 →
          (transformMicroserviceResponse d).extras.nightly_rate = none)
       ∧ (e.tax_rate_pct = some 0 →
          (transformMicroserviceResponse d).extras.tax_rate_pct = none)
       ∧ (e.service_rate_pct = some 0 →
          (transformMicroserviceResponse d).extras.service_rate_pct = none)
       ∧ (e.fnb_minimum = some 0 →
          (transformMicroserviceResponse d).extras.fnb_minimum = none)
       ∧ (e.guestroom_base = some 0 →
          (transformMicroserviceResponse d).extras.guestroom_base = none)
       ∧ (e.guestroom_taxes_fees = some 0 →
          (transformMicroserviceResponse d).extras.guestroom_taxes_fees = none)
       ∧ (e.estimated_fnb_gross = some 0 →
          (transformMicroserviceResponse d).extras.estimated_fnb_gross = none)))
    ∧ ((d.totals.isSome && d.extras.isSome) = false →
      ((d.room_nights = some 0 →
          (transformMicroserviceResponse d).extras.room_nights = none)
       ∧ (d.nightly_rate = some 0 →
          (transformMicroserviceResponse d).extras.nightly_rate = none)
       ∧ (d.tax_rate_pct = some 0 →
          (transformMicroserviceResponse d).extras.tax_rate_pct = none)
       ∧ (d.service_rate_pct = some 0 →
          (transformMicroserviceResponse d).extras.service_rate_pct = none)
       ∧ (d.fnb_minimum = some 0 →
          (transformMicroserviceResponse d).extras.fnb_minimum = none)
       ∧ (d.guestroom_base = some 0 →
          (transformMicroserviceResponse d).extras.guestroom_base = none)
       ∧ (d.guestroom_taxes_fees = some 0 →
          (transformMicroserviceResponse d).extras.guestroom_taxes_fees = none)
       ∧ (d.estimated_fnb_gross = some 0 →
          (transformMicroserviceResponse d).extras.estimated_fnb_gross = none))) := by
  constructor
  · intro ht he
    refine ⟨fun h => ?_, fun h => ?_, fun h => ?_, fun h => ?_,
      fun h => ?_, fun h => ?_, fun h => ?_, fun h => ?_⟩ <;>
      simp [transformMicroserviceResponse, ht, he, transformExtrasOld,
        jsNumOrNull, *]
  · intro hc0
    refine ⟨fun h => ?_, fun h => ?_, fun h => ?_, fun h => ?_,
      fun h => ?_, fun h => ?_, fun h => ?_, fun h => ?_⟩ <;>
      simp [transformMicroserviceResponse, hc0, transformExtrasNew,
        UpPayload.flatExtras, jsNumOrNull, *]

/-- Witness for C10 at an old-format payload reporting `room_nights: 0`. -/
theorem claim_C10_witness :
    (transformMicroserviceResponse payloadC10).extras.room_nights = none :=
  ((claim_C10 payloadC10 emptyUpTotals
      { emptyUpExtras with room_nights := some 0 }).1 rfl rfl).1 rfl

end HotelParser
